import Mathlib

/-!
Verification of the `airfilter` I/O layer (`src/airfilter/io.py`): a shallow
embedding of its printers, indent tracking, command runner, shim queue and
prompt helpers, with theorems checking the specification's claims.

Text is modelled as `List Char` (Python `str`).  Python's `textwrap.dedent`,
`textwrap.indent` and `str.strip` are modelled faithfully below.
-/

/-- Python `str.strip()` whitespace set: space, tab, newline, carriage return,
vertical tab, form feed. -/
def isPyWS (c : Char) : Bool :=
  c = ' ' || c = '\t' || c = '\n' || c = '\x0d' || c = '\x0b' || c = '\x0c'

/-- Whitespace recognised by `textwrap.dedent`'s regexes: `[ \t]` only. -/
def isWSTab (c : Char) : Bool :=
  c = ' ' || c = '\t'

/-- Split a text on newline characters, like Python `str.split("\n")`:
for n newlines the result has n+1 pieces. -/
def splitNL : List Char → List (List Char)
  | [] => [[]]
  | c :: rest =>
    match splitNL rest with
    | [] => [[c]]
    | l :: ls => if c = '\n' then [] :: l :: ls else (c :: l) :: ls

/-- Rejoin the pieces of `splitNL` with newline characters. -/
def joinNL : List (List Char) → List Char
  | [] => []
  | [l] => l
  | l :: ls => l ++ '\n' :: joinNL ls

/-- Longest common prefix of two character lists; `textwrap.dedent`'s margin
narrowing loop computes exactly this over the collected indents. -/
def lcp : List Char → List Char → List Char
  | a :: as, b :: bs => if a = b then a :: lcp as bs else []
  | _, _ => []

/-- Python `str.strip()`: drop leading and trailing whitespace. -/
def stripText (t : List Char) : List Char :=
  ((t.dropWhile isPyWS).reverse.dropWhile isPyWS).reverse

/-- Python `textwrap.dedent`: lines consisting solely of `[ \t]` are
normalised to empty; the margin is the longest common `[ \t]*` prefix of the
lines that have non-whitespace content; the margin is then removed from every
line that starts with it. -/
def textwrap_dedent (t : List Char) : List Char :=
  let lines := (splitNL t).map (fun l => if !l.isEmpty && l.all isWSTab then [] else l)
  let indents := lines.filterMap
    (fun l => if l.any (fun c => !isWSTab c) then some (l.takeWhile isWSTab) else none)
  match indents with
  | [] => joinNL lines
  | i :: is =>
    let margin := is.foldl lcp i
    if margin.isEmpty then joinNL lines
    else joinNL (lines.map (fun l => if margin.isPrefixOf l then l.drop margin.length else l))

/-- Python `textwrap.indent(t, n * " ")` with the default predicate: prefix
every line that has non-whitespace content with n spaces. -/
def indentText (n : Int) (t : List Char) : List Char :=
  joinNL ((splitNL t).map
    (fun l => if l.any (fun c => !isPyWS c) then List.replicate n.toNat ' ' ++ l else l))

/-- Outcome of `run`'s dedent preprocessing (io.py lines 260-266): on an empty
command, `command[0]` raises IndexError. -/
inductive DedentOut
  | indexError
  | ok (cmd : List Char)
deriving DecidableEq

/-- The dedent step of `run` (io.py 260-266): `if command[0] == "\n": command
= command[1:]`, then `command = textwrap.dedent(command)`. -/
def dedentStep : List Char → DedentOut
  | [] => .indexError
  | c :: rest => .ok (textwrap_dedent (if c = '\n' then rest else c :: rest))

/-- The dedent block of `run` is guarded by the `dedent` flag. -/
def applyDedent (dedent : Bool) (command : List Char) : DedentOut :=
  if dedent then dedentStep command else .ok command

/-- CLI argument object (io.py class `Args`): carries the verbosity flag read
by `Verbose.__call__` via `self.cli_args.verbose`. -/
structure Args where
  verbose : Bool
deriving DecidableEq

/-- The shared state of `PrintContext`: `indent` is a class attribute, and
`__init__` writes `cli_args` and `logger` onto the class (io.py 112-116), so
there is exactly one such state per process.  The logger is modelled by its
presence alone (`Option Unit`). -/
structure PCState where
  cli_args : Args
  logger : Option Unit
  indent : Int
deriving DecidableEq

/-- `PrintContext.__init__` (io.py 114-116): assigns `cli_args` and `logger`
onto the class, i.e. overwrites the shared state; `indent` is untouched. -/
def PrintContext.init (st : PCState) (cli_args : Args) (logger : Option Unit) : PCState :=
  { st with cli_args := cli_args, logger := logger }

/-- `PrintContext.increase` (io.py 121-122): `PrintContext.indent += by`. -/
def PrintContext.increase (indent amount : Int) : Int := indent + amount

/-- `PrintContext.decrease` (io.py 118-119): `PrintContext.indent = max(0,
self.indent - by)`. -/
def PrintContext.decrease (indent amount : Int) : Int := max 0 (indent - amount)

/-- `PrintContext.mkstr` (io.py 124-128): render the argument, strip
surrounding whitespace, indent every content line by `indent` spaces. -/
def mkstr (st : PCState) (text : List Char) : List Char :=
  indentText st.indent (stripText text)

/-- Where a console write goes: `sys.stdout` or `sys.stderr`. -/
inductive OutStream
  | stdoutS
  | stderrS
deriving DecidableEq

/-- Level of a log-sink call (`logger.info` / `logger.debug`). -/
inductive LogLevel
  | infoLevel
  | debugLevel
deriving DecidableEq

/-- The four printer callables bound into facades: the classes `Info`,
`Verbose`, `Silent` (io.py 131-150) and the builtin `print` used by the
`defaults` facade (io.py 377-379). -/
inductive PrinterKind
  | info
  | verbose
  | silent
  | builtin_print
deriving DecidableEq

/-- One printer call's observable effect: an optional console write (stream
and text) and an optional log-sink call (level and text). -/
structure EmitResult where
  console : Option (OutStream × List Char)
  logged : Option (LogLevel × List Char)
deriving DecidableEq

/-- The `__call__` bodies of io.py 131-150 plus the builtin `print`:
`Info` prints `mkstr(...)` to stderr and logs at info level if a sink exists;
`Verbose` prints to stderr only if `self.cli_args.verbose` and logs at debug
level if a sink exists; `Silent` does nothing; builtin `print` writes the text
to stdout. -/
def emit (k : PrinterKind) (st : PCState) (text : List Char) : EmitResult :=
  match k with
  | .info =>
    let s := mkstr st text
    { console := some (.stderrS, s)
      logged := st.logger.map (fun _ => (.infoLevel, textwrap_dedent s)) }
  | .verbose =>
    let s := mkstr st text
    { console := if st.cli_args.verbose then some (.stderrS, s) else none
      logged := st.logger.map (fun _ => (.debugLevel, textwrap_dedent s)) }
  | .silent => { console := none, logged := none }
  | .builtin_print => { console := some (.stdoutS, text), logged := none }

/-- A `ScopedIO` facade's printer bindings (io.py 370-383): the dataclass
bundles a printer, a section constructor bound to that printer and a runner
bound to that printer; each is modelled by the kind of printer it is bound
to. -/
structure ScopedIOK where
  printer : PrinterKind
  section_printer : PrinterKind
  run_printer : PrinterKind
deriving DecidableEq

/-- The raw `defaults` facade (io.py 377-379): every slot is bound to the
builtin `print`. -/
def defaults : ScopedIOK :=
  { printer := .builtin_print, section_printer := .builtin_print, run_printer := .builtin_print }

/-- The `no_output` facade (io.py 381-383): every slot is bound to
`Silent()`. -/
def no_output : ScopedIOK :=
  { printer := .silent, section_printer := .silent, run_printer := .silent }

/-- The `self.info` facade built by `IO.__init__` (io.py 396-400): bound to
`info_printer = Info(cli_args)`. -/
def io_info_facade : ScopedIOK :=
  { printer := .info, section_printer := .info, run_printer := .info }

/-- The `self.verbose` facade built by `IO.__init__` (io.py 401-405): bound to
`verbose_printer = Info(cli_args)` — io.py line 394 constructs `Info`, not
`Verbose`. -/
def io_verbose_facade : ScopedIOK :=
  { printer := .info, section_printer := .info, run_printer := .info }

/-- The printer kinds `IO.__init__` constructs for its two handles (io.py
393-394): `info_printer = Info(cli_args)` and `verbose_printer =
Info(cli_args)`. -/
structure IOHandles where
  info_kind : PrinterKind
  verbose_kind : PrinterKind
deriving DecidableEq

/-- The handle bindings of `IO.__init__` as written in io.py 393-394. -/
def io_handles : IOHandles :=
  { info_kind := .info, verbose_kind := .info }

/-- Effect of `IO.__init__` (io.py 392-394) on the shared `PrintContext`
state: `Info(cli_args)` is constructed twice, each running
`PrintContext.__init__(cli_args, logger=None)`. -/
def io_init_state (st : PCState) (cli_args : Args) : PCState :=
  PrintContext.init (PrintContext.init st cli_args none) cli_args none

/-- `Section` (io.py 154-179) as a bracket on the indent counter for an
indenting printer: enter increases by 4, exit decreases by 4 unconditionally —
`__exit__` runs whether the body returned or raised.  The body takes the
entered indent and yields its result (possibly an exception) and the indent it
leaves behind. -/
def withSection {E A : Type} (indent : Int) (body : Int → Except E A × Int) :
    Except E A × Int :=
  let entered := PrintContext.increase indent 4
  let r := body entered
  (r.1, PrintContext.decrease r.2 4)

/-- An indent mutation, for stating invariants over arbitrary op sequences. -/
inductive IndentOp
  | inc (amount : Int)
  | dec (amount : Int)

/-- The amount an `IndentOp` carries. -/
def IndentOp.amount : IndentOp → Int
  | .inc a => a
  | .dec a => a

/-- Apply one indent mutation via the `PrintContext` operations. -/
def applyIndentOp (indent : Int) : IndentOp → Int
  | .inc a => PrintContext.increase indent a
  | .dec a => PrintContext.decrease indent a

/-- Apply a sequence of indent mutations in order. -/
def applyIndentOps (indent : Int) (ops : List IndentOp) : Int :=
  ops.foldl applyIndentOp indent

/-- The execution strategy `run` picks (io.py 226-258): one of the three
locally defined runfuncs, or a caller-supplied `runfunc`. -/
inductive Strategy
  | defaultRunfunc
  | lineIteratorRunfunc
  | backgroundRunfunc
  | custom
deriving DecidableEq

/-- Strategy selection of io.py 248-258: when no `runfunc` is supplied, start
from `default_runfunc`, replace it with `background_runfunc` if `background`,
else with `line_iterator_runfunc` if `line_iterator`; a supplied `runfunc`
wins outright. -/
def selectStrategy (hasRunfunc background line_iterator : Bool) : Strategy :=
  if !hasRunfunc then
    if background then .backgroundRunfunc
    else if line_iterator then .lineIteratorRunfunc
    else .defaultRunfunc
  else .custom

/-- An `sh.ErrorReturnCode` raised for a non-zero exit, carrying its rendered
text (`str(err)`). -/
structure ErrCode where
  text : List Char
deriving DecidableEq

/-- What invoking the chosen runfunc on the command does: return a result
(its rendered output text) or raise `ErrorReturnCode`. -/
inductive ExecOutcome
  | success (out : List Char)
  | nonzero (err : ErrCode)
deriving DecidableEq

/-- `true` exactly when the execution did not raise `ErrorReturnCode`. -/
def ExecOutcome.isSuccess : ExecOutcome → Bool
  | .success _ => true
  | .nonzero _ => false

/-- A Python exception escaping `run`: the IndexError of the dedent step on an
empty command, or a re-raised `ErrorReturnCode`. -/
inductive PyErr
  | indexError
  | errorReturnCode (err : ErrCode)
deriving DecidableEq

/-- What `run` returns (io.py 293-296): the boolean `returnval` when
`return_bool`, else `result` — the command's output on success or the caught
`ErrorReturnCode` object. -/
inductive RunRet
  | bool (b : Bool)
  | okResult (out : List Char)
  | errResult (err : ErrCode)
deriving DecidableEq

/-- A call to `run` either raises or returns. -/
inductive RunRes
  | raised (e : PyErr)
  | returned (v : RunRet)
deriving DecidableEq

/-- Observable side effects of `run` in order: printer invocations (with the
text handed to the printer) and the single execution of the command (with the
chosen strategy and the `_err_to_out` value given to `bash`). -/
inductive Event
  | printed (text : List Char)
  | exec (cmd : List Char) (strat : Strategy) (err_to_out : Bool)
deriving DecidableEq

/-- Events and final outcome of one `run` call. -/
structure RunOutcome where
  events : List Event
  res : RunRes
deriving DecidableEq

/-- io.py 222-224: `if return_bool: err_on_nonzero = False; combine_out_err =
False`.  Yields the effective `(err_on_nonzero, combine_out_err)` pair. -/
def effectiveOpts (return_bool err_on_nonzero combine_out_err : Bool) : Bool × Bool :=
  if return_bool then (false, false) else (err_on_nonzero, combine_out_err)

/-- The `_err_to_out` value each runfunc passes to `bash` (io.py 227-246):
`line_iterator_runfunc` hardcodes `True`; the others pass `combine_out_err`. -/
def strategyErrToOut : Strategy → Bool → Bool
  | .lineIteratorRunfunc, _ => true
  | _, combine_out_err => combine_out_err

/-- The `[Output]` section of io.py 287-291: printed unless suppressed,
line-iterating or backgrounded, and only when `result` renders non-empty. -/
def outputEvents (suppress_output line_iterator background : Bool) (text : List Char) :
    List Event :=
  if !suppress_output && !line_iterator && !background && !text.isEmpty then
    [.printed "[Output]".toList, .printed text]
  else []

/-- The `run` function of io.py 204-296 with shims disabled (real execution),
over an execution oracle `exec` standing for what `bash` does with the
command: force the option pair when `return_bool` (222-224), select the
strategy (248-258), dedent (260-266) — IndexError on an empty command aborts
the call before anything is printed or executed — print the command under a
`[Command]` section (268-270), execute once (272-279), catch an
`ErrorReturnCode` and re-raise it only when the effective `err_on_nonzero` is
set, else remember `False` for the boolean return (280-285), print the
`[Output]` section (287-291), and return the boolean or the result
(293-296). -/
def runModel (command : List Char)
    (hasRunfunc return_bool dedent err_on_nonzero suppress_output
      line_iterator background combine_out_err : Bool)
    (exec : List Char → Strategy → Bool → ExecOutcome) : RunOutcome :=
  let eff := effectiveOpts return_bool err_on_nonzero combine_out_err
  let strat := selectStrategy hasRunfunc background line_iterator
  match applyDedent dedent command with
  | .indexError => { events := [], res := .raised .indexError }
  | .ok cmd =>
    let e2o := strategyErrToOut strat eff.2
    let ev0 := [Event.printed "[Command]".toList, Event.printed cmd, Event.exec cmd strat e2o]
    match exec cmd strat e2o with
    | .success out =>
      { events := ev0 ++ outputEvents suppress_output line_iterator background out
        res := .returned (if return_bool then .bool true else .okResult out) }
    | .nonzero err =>
      if eff.1 then { events := ev0, res := .raised (.errorReturnCode err) }
      else
        { events := ev0 ++ outputEvents suppress_output line_iterator background err.text
          res := .returned (if return_bool then .bool false else .errResult err) }

/-- A registered shim (io.py 29-51): the regex's source string, the regex's
`search` test on a command (abstracted to a boolean function), and the
handler's eventual value (the arity probing of io.py 86-92 is abstracted to
the value the handler produces). -/
structure Shim (A : Type) where
  cmd_regex_str : List Char
  regex_search : List Char → Bool
  handler : A

/-- `str(shim)` (io.py 50-51). -/
def shimStr {A : Type} (s : Shim A) : List Char :=
  "<Shim `".toList ++ s.cmd_regex_str ++ "`>".toList

/-- The message of `Shims.Mismatch` (io.py 96):
`f"Expected {shim} got {cmd_str})"`. -/
def mismatchMsg {A : Type} (s : Shim A) (cmd : List Char) : List Char :=
  "Expected ".toList ++ shimStr s ++ " got ".toList ++ cmd ++ ")".toList

/-- `deque.appendleft` on a deque modelled as a list with its left end at the
head (io.py 75, 77). -/
def Shims.appendleft {A : Type} (s : Shim A) (q : List (Shim A)) : List (Shim A) :=
  s :: q

/-- `Shims.expect` over a list of shims (io.py 72-77): each is appendlefted in
turn. -/
def Shims.expectList {A : Type} (items : List (Shim A)) (q : List (Shim A)) :
    List (Shim A) :=
  items.foldl (fun acc s => Shims.appendleft s acc) q

/-- Result of `Shims.run`: the handler's value and the remaining queue, a
`Shims.Mismatch` with its message, or the IndexError of popping an empty
deque. -/
inductive ShimRunRes (A : Type)
  | ok (handler : A) (rest : List (Shim A))
  | mismatch (msg : List Char)
  | emptyQueue

/-- `Shims.run` (io.py 79-96): pop the right end of the deque; if the popped
shim's pattern matches the command, invoke its handler, else raise
`Shims.Mismatch` naming the shim and the command. -/
def Shims.runModel {A : Type} (cmd : List Char) (q : List (Shim A)) : ShimRunRes A :=
  match q.reverse with
  | [] => .emptyQueue
  | shim :: rest =>
    if shim.regex_search cmd then .ok shim.handler rest.reverse
    else .mismatch (mismatchMsg shim cmd)

/-- The literal timeout the source hands to `select.select` (io.py 417): the
constant `10`, not the `seconds` parameter. -/
def selectTimeoutLiteral : Nat := 10

/-- Observable outcome of `timeout_prompt`: the config line printed through
the facade's printer, the prompt printed to stderr, the returned answer, how
long the select waited (seconds of wall clock, exact arrival or the select
timeout), and whether pending input was flushed. -/
structure TPOutcome where
  printed_config : List Char
  printed_prompt : List Char
  answer : List Char
  waited : Nat
  flushed : Bool
deriving DecidableEq

/-- `timeout_prompt` (io.py 411-427) over a model of standard input: `none`
when no line ever arrives, `some (t, line)` when a line arrives `t` seconds
in.  `select.select([sys.stdin], [], [], 10)` reports ready input only if it
arrives within the literal 10-second window — the `seconds` parameter is used
only in the printed banner; on ready input the stripped line is returned
unless empty (then `default`); otherwise the call returns `default` after the
full 10-second wait and flushes the input buffer. -/
def timeout_prompt (prompt_ : List Char) (seconds : Nat) (default : List Char)
    (stdin_arrival : Option (Nat × List Char)) : TPOutcome :=
  let cfg := "timeout=".toList ++ (toString seconds).toList ++ "s, defaults_to=".toList
      ++ default ++ ", prompt=".toList
  let pr := prompt_ ++ " ❯ ".toList
  match stdin_arrival with
  | some (t, line) =>
    if t ≤ selectTimeoutLiteral then
      let answer := stripText line
      if answer.isEmpty then
        { printed_config := cfg, printed_prompt := pr, answer := default,
          waited := t, flushed := false }
      else
        { printed_config := cfg, printed_prompt := pr, answer := answer,
          waited := t, flushed := false }
    else
      { printed_config := cfg, printed_prompt := pr, answer := default,
        waited := selectTimeoutLiteral, flushed := true }
  | none =>
    { printed_config := cfg, printed_prompt := pr, answer := default,
      waited := selectTimeoutLiteral, flushed := true }

/-! ## Claim theorems -/

/-- C1: with no line on standard input, `timeout_prompt("Continue?",
seconds=0, default="timed_out")` does return `"timed_out"`, but the wait is
not bounded by the `seconds` argument: `select` is called with the literal
timeout 10 (io.py 417), so the call waits 10 seconds — more than the promised
0 — and in general the wait on a silent stdin is always the constant 10,
whatever `seconds` is. -/
theorem timeout_prompt_ignores_seconds :
    (timeout_prompt "Continue?".toList 0 "timed_out".toList none).answer = "timed_out".toList
    ∧ (timeout_prompt "Continue?".toList 0 "timed_out".toList none).waited = 10
    ∧ 0 < (timeout_prompt "Continue?".toList 0 "timed_out".toList none).waited
    ∧ (∀ (p : List Char) (s : Nat) (d : List Char),
        (timeout_prompt p s d none).waited = selectTimeoutLiteral) := by
  refine ⟨by decide, by decide, by decide, fun _ _ _ => rfl⟩

/-- C2: the `verbose` handle of the `IO` facade is not bound to a printer with
`Verbose` semantics: io.py 394 constructs `Info(cli_args)` for it, and `Info`
writes to stderr unconditionally, so with the verbosity flag unset the handle
still emits — whereas a `Verbose` printer would emit nothing. -/
theorem io_verbose_bound_to_info :
    io_handles.verbose_kind = .info
    ∧ (emit io_handles.verbose_kind ⟨⟨false⟩, none, 0⟩ "hello".toList).console
        = some (.stderrS, "hello".toList)
    ∧ (emit .verbose ⟨⟨false⟩, none, 0⟩ "hello".toList).console = none := by
  refine ⟨rfl, by decide, by decide⟩

/-- C3 counterexample: the claim quantifies over every command string, but
`run("", return_bool=True)` with the default `dedent=True` raises IndexError
from `command[0]` and returns no boolean at all. -/
theorem run_return_bool_empty_raises :
    runModel [] false true true true false false false true (fun _ _ _ => .success [])
      = { events := [], res := .raised .indexError } := by
  decide

/-- C3 (amended): for every command that is non-empty whenever dedent is
enabled, and every combination of the other options and every execution
outcome, `run(command, return_bool=True)` never propagates a non-zero-exit
error and returns exactly the boolean `true` on zero exit and `false` on
non-zero exit; and `return_bool` forces the effective `err_on_nonzero` and
`combine_out_err` to `False` before execution. -/
theorem run_return_bool_total (command : List Char)
    (hasRunfunc dedent err_on_nonzero suppress_output line_iterator background
      combine_out_err : Bool) (oc : ExecOutcome)
    (h : dedent = true → command ≠ []) :
    (runModel command hasRunfunc true dedent err_on_nonzero suppress_output
        line_iterator background combine_out_err (fun _ _ _ => oc)).res
        = .returned (.bool oc.isSuccess)
      ∧ effectiveOpts true err_on_nonzero combine_out_err = (false, false) := by
  refine ⟨?_, rfl⟩
  obtain ⟨cmd, hcmd⟩ : ∃ cmd, applyDedent dedent command = .ok cmd := by
    cases dedent with
    | false => exact ⟨command, rfl⟩
    | true =>
      cases command with
      | nil => exact absurd rfl (h rfl)
      | cons c rest => exact ⟨_, rfl⟩
  cases oc <;> simp [runModel, hcmd, effectiveOpts, ExecOutcome.isSuccess]

/-- C3 witness: `run_return_bool_total` at the command `"false"` with a
non-zero exit outcome: the call returns the boolean `false`. -/
theorem run_return_bool_total_witness :
    (runModel "false".toList false true true true false false false true
        (fun _ _ _ => .nonzero ⟨"exit 1".toList⟩)).res = .returned (.bool false)
      ∧ effectiveOpts true true true = (false, false) :=
  run_return_bool_total "false".toList false true true false false false true
    (.nonzero ⟨"exit 1".toList⟩) (fun _ => by decide)

/-- C4: with no caller-supplied runfunc, `run` picks exactly one of the three
strategies: the default when neither `line_iterator` nor `background` is
requested, and `background_runfunc` whenever `background` is set — also when
`line_iterator` is set alongside it, since io.py 251-255 tests `background`
first; a concrete `run` call with both flags executes through
`background_runfunc`. -/
theorem run_strategy_selection :
    selectStrategy false false false = .defaultRunfunc
    ∧ (∀ li, selectStrategy false true li = .backgroundRunfunc)
    ∧ selectStrategy false false true = .lineIteratorRunfunc
    ∧ (∀ bg li, selectStrategy false bg li = .defaultRunfunc
        ∨ selectStrategy false bg li = .lineIteratorRunfunc
        ∨ selectStrategy false bg li = .backgroundRunfunc)
    ∧ (∀ bg li, selectStrategy true bg li = .custom)
    ∧ (runModel "x".toList false false true false false true true true
        (fun _ _ _ => .success [])).events
        = [.printed "[Command]".toList, .printed "x".toList,
           .exec "x".toList .backgroundRunfunc true] := by
  refine ⟨rfl, by decide, rfl, by decide, by decide, by decide⟩

/-- C5 counterexample: the raw `defaults` facade binds the builtin `print` as
its printer (io.py 377-379), and a text emitted through it is written to
standard output, not the error stream. -/
theorem defaults_printer_writes_stdout :
    (emit defaults.printer ⟨⟨true⟩, none, 0⟩ "hello".toList).console
      = some (.stdoutS, "hello".toList) := by
  decide

/-- C5 (amended): the `Info`/`Verbose`/`Silent` printers bound into the
`no_output` and `IO` facades write only to the error stream (or nothing at
all), but the raw `defaults` facade is bound to the builtin `print`, whose
output goes to standard output. -/
theorem facade_printer_streams :
    defaults.printer = .builtin_print
    ∧ (∀ (st : PCState) (text : List Char),
        (emit .builtin_print st text).console = some (.stdoutS, text))
    ∧ (∀ (st : PCState) (text : List Char),
        (emit .info st text).console = some (.stderrS, mkstr st text))
    ∧ (∀ (st : PCState) (text : List Char),
        (emit .verbose st text).console
          = if st.cli_args.verbose then some (.stderrS, mkstr st text) else none)
    ∧ (∀ (st : PCState) (text : List Char), (emit .silent st text).console = none)
    ∧ no_output.printer = .silent
    ∧ io_info_facade.printer = .info
    ∧ io_verbose_facade.printer = .info := by
  exact ⟨rfl, fun _ _ => rfl, fun _ _ => rfl, fun _ _ => rfl, fun _ _ => rfl, rfl, rfl, rfl⟩

/-- C6: `expect` pushes shims onto the front of the deque (so registering a
list leaves it reversed onto the queue) and `Shims.run` pops from the back,
hence the earliest-registered shim is consumed first; when the popped shim's
pattern does not match the command — including an out-of-order but otherwise
valid command — the result is a `Shims.Mismatch` whose message contains both
the expected shim's pattern and the actual command text; concretely,
registering shims for `ls` then `pwd` and running `pwd` first mismatches with
a message naming `ls` and `pwd`. -/
theorem shims_fifo_and_mismatch :
    (∀ {A : Type} (s1 s2 : Shim A) (cmd : List Char),
      Shims.runModel cmd (Shims.expectList [s1, s2] [])
        = if s1.regex_search cmd then .ok s1.handler [s2]
          else .mismatch (mismatchMsg s1 cmd))
    ∧ (∀ {A : Type} (items q : List (Shim A)),
        Shims.expectList items q = items.reverse ++ q)
    ∧ (∀ {A : Type} (s : Shim A) (cmd : List Char),
        mismatchMsg s cmd
          = "Expected ".toList ++ "<Shim `".toList ++ s.cmd_regex_str ++ "`>".toList
            ++ " got ".toList ++ cmd ++ ")".toList)
    ∧ Shims.runModel "pwd".toList
        (Shims.expectList [⟨"ls".toList, fun c => c == "ls".toList, ()⟩,
                           ⟨"pwd".toList, fun c => c == "pwd".toList, ()⟩] [])
        = .mismatch "Expected <Shim `ls`> got pwd)".toList := by
  refine ⟨fun s1 s2 cmd => rfl, ?_, fun s cmd => by simp [mismatchMsg, shimStr], rfl⟩
  intro A items
  induction items with
  | nil => intro q; rfl
  | cons x xs ih =>
    intro q
    rw [show Shims.expectList (x :: xs) q = Shims.expectList xs (x :: q) from rfl, ih]
    simp

/-- C7: with dedent requested, `run` strips exactly one leading newline (only
when one is present) and then applies `textwrap.dedent`'s common-leading-
whitespace removal: the spec's example `"\n  echo hi\n  echo bye"` becomes
`"echo hi\necho bye"`; a doubled leading newline loses only one of the two;
and a full `run` call prints and executes the dedented command. -/
theorem run_dedent_exact :
    dedentStep "\n  echo hi\n  echo bye".toList = .ok "echo hi\necho bye".toList
    ∧ (∀ (c : Char) (rest : List Char),
        dedentStep (c :: rest)
          = .ok (textwrap_dedent (if c = '\n' then rest else c :: rest)))
    ∧ dedentStep "\n\n  x".toList = .ok "\nx".toList
    ∧ (runModel "\n  echo hi\n  echo bye".toList false false true true false false false
        true (fun _ _ _ => .success "hello".toList)).events
        = [.printed "[Command]".toList, .printed "echo hi\necho bye".toList,
           .exec "echo hi\necho bye".toList .defaultRunfunc true,
           .printed "[Output]".toList, .printed "hello".toList] := by
  refine ⟨by decide, fun _ _ => rfl, by decide, by decide⟩

/-- C8: `increase(by)` then `decrease(by)` restores any non-negative indent
for any non-negative amount; no sequence of increase/decrease operations with
non-negative amounts drives the indent negative (decrease clamps at zero);
and `Section`'s exit decreases unconditionally, so a body that raises still
leaves the indent at its pre-entry value. -/
theorem indent_roundtrip_nonneg :
    (∀ i a : Int, 0 ≤ i → 0 ≤ a →
      PrintContext.decrease (PrintContext.increase i a) a = i)
    ∧ (∀ (i : Int) (ops : List IndentOp), 0 ≤ i →
        (∀ op ∈ ops, 0 ≤ op.amount) → 0 ≤ applyIndentOps i ops)
    ∧ (∀ {E A : Type} (r : Except E A) (i : Int), 0 ≤ i →
        withSection i (fun j => (r, j)) = (r, i)) := by
  refine ⟨?_, ?_, ?_⟩
  · intro i a hi ha
    simp only [PrintContext.increase, PrintContext.decrease]
    omega
  · intro i ops
    induction ops generalizing i with
    | nil => intro hi _; simpa [applyIndentOps] using hi
    | cons op ops ih =>
      intro hi hops
      have h1 : 0 ≤ applyIndentOp i op := by
        cases op with
        | inc a =>
          have := hops (.inc a) (by simp)
          simp [applyIndentOp, PrintContext.increase, IndentOp.amount] at this ⊢
          omega
        | dec a => simp [applyIndentOp, PrintContext.decrease]
      have := ih (applyIndentOp i op) h1 (fun op hop => hops op (by simp [hop]))
      simpa [applyIndentOps] using this
  · intro E A r i hi
    simp only [withSection, PrintContext.increase, PrintContext.decrease, Prod.mk.injEq]
    exact ⟨trivial, by omega⟩

/-- C8 witness: the roundtrip at indent 8 with amount 4, non-negativity over
a concrete op sequence that hits the clamp, and indent restoration around a
raising body. -/
theorem indent_roundtrip_nonneg_witness :
    PrintContext.decrease (PrintContext.increase 8 4) 4 = 8
    ∧ 0 ≤ applyIndentOps 8 [.inc 4, .dec 20, .inc 2]
    ∧ withSection (8 : Int) (fun j => ((Except.error "boom".toList : Except (List Char) Unit), j))
        = (.error "boom".toList, 8) :=
  ⟨indent_roundtrip_nonneg.1 8 4 (by decide) (by decide),
   indent_roundtrip_nonneg.2.1 8 [.inc 4, .dec 20, .inc 2] (by decide) (by decide),
   indent_roundtrip_nonneg.2.2 (Except.error "boom".toList) 8 (by decide)⟩

/-- C9: `PrintContext.__init__` writes `cli_args` and `logger` onto the class
(the shared state), leaving the class-level `indent` alone; therefore
constructing a second printer overwrites what the first one observes — a
`Verbose` printer constructed with the flag set emits nothing once a later
construction rebinds the flag to unset — and `IO.__init__`'s two `Info`
constructions leave the shared state at its `cli_args` with no logger. -/
theorem print_context_class_state :
    (∀ (st : PCState) (a : Args) (l : Option Unit),
      (PrintContext.init st a l).cli_args = a
      ∧ (PrintContext.init st a l).logger = l
      ∧ (PrintContext.init st a l).indent = st.indent)
    ∧ (∀ (st : PCState) (aOld aNew : Args) (lOld lNew : Option Unit)
        (k : PrinterKind) (text : List Char),
        emit k (PrintContext.init (PrintContext.init st aOld lOld) aNew lNew) text
          = emit k (PrintContext.init st aNew lNew) text)
    ∧ (∀ (st : PCState) (a : Args),
        io_init_state st a = { st with cli_args := a, logger := none })
    ∧ (emit .verbose (PrintContext.init (PrintContext.init ⟨⟨true⟩, none, 0⟩ ⟨true⟩ none)
        ⟨false⟩ none) "hello".toList).console = none := by
  exact ⟨fun _ _ _ => ⟨rfl, rfl, rfl⟩, fun _ _ _ _ _ _ _ => rfl, fun _ _ => rfl, by decide⟩

/-- C10: `run("", dedent=True)` hits `command[0]` on the empty string and
raises IndexError whatever the other options are: no printer call and no
execution happens (the event list is empty and the outcome is the same for
every execution oracle). -/
theorem run_empty_command_index_error :
    ∀ (hasRunfunc return_bool err_on_nonzero suppress_output line_iterator background
        combine_out_err : Bool)
      (exec : List Char → Strategy → Bool → ExecOutcome),
      runModel [] hasRunfunc return_bool true err_on_nonzero suppress_output
          line_iterator background combine_out_err exec
        = { events := [], res := .raised .indexError } := by
  intro hasRf rb eon so li bg coe exec
  simp [runModel, applyDedent, dedentStep]
